import Mathlib

/-!
Verification of `gps.py` from NavadeepDj/Missing_Person_Detection.

The file embeds the two core operations of `gps.py`:

* `to_deg` — conversion of a non-negative decimal-degree value into the
  EXIF degrees/minutes/seconds rational triple (`src/gps.py`, lines 10–20);
* `add_gps_to_image` — the end-to-end GPS-EXIF merge pipeline
  (`src/gps.py`, lines 23–69).

Python floats are modelled as exact rationals (`ℚ`); Python `int()`
(truncation toward zero) and Python 3 `round()` (nearest, ties to even)
are modelled explicitly as `pyInt` and `pyRound`.  The external piexif
codec (`piexif.load` / `piexif.dump`) and the PIL container reader are
third-party collaborators, not code of this repository; they are
abstracted as parameters (`load`, `dump`) and as fields of the
`ImageFile` state.  Byte strings are lists of byte values.
-/

/-- Floor of a rational, written so that it evaluates by kernel reduction. -/
def ratFloor (q : ℚ) : ℤ := q.num / (q.den : ℤ)

/-- `ratFloor` agrees with the floor function. -/
theorem ratFloor_eq_floor (q : ℚ) : ratFloor q = ⌊q⌋ := Rat.floor_def.symm

/-- Python `int()` applied to a float: truncation toward zero. -/
def pyInt (q : ℚ) : ℤ := if 0 ≤ q then ratFloor q else -(ratFloor (-q))

/-- Python 3 `round()` to the nearest integer, ties going to the even
integer (banker's rounding). -/
def pyRound (q : ℚ) : ℤ :=
  if q - (ratFloor q : ℚ) < 1/2 then ratFloor q
  else if (1 : ℚ)/2 < q - (ratFloor q : ℚ) then ratFloor q + 1
  else if ratFloor q % 2 = 0 then ratFloor q else ratFloor q + 1

/-- `to_deg` from `src/gps.py` lines 10–20: convert decimal degrees to a
degrees/minutes/seconds triple of (numerator, denominator) pairs,
`((deg,1),(minutes,1),(sec,10000))`. -/
def to_deg (value : ℚ) : (ℤ × ℤ) × (ℤ × ℤ) × (ℤ × ℤ) :=
  let deg := pyInt value
  let min_float := (value - (deg : ℚ)) * 60
  let minutes := pyInt min_float
  let sec := pyRound ((min_float - (minutes : ℚ)) * 60 * 10000)
  ((deg, 1), (minutes, 1), (sec, 10000))

/-- On non-negative arguments Python truncation agrees with the floor. -/
theorem pyInt_eq_floor (q : ℚ) (h : 0 ≤ q) : pyInt q = ⌊q⌋ := by
  simp [pyInt, h, ratFloor_eq_floor]

/-- `pyRound` returns either the floor or the floor plus one. -/
theorem pyRound_eq_floor_or_succ (q : ℚ) :
    pyRound q = ⌊q⌋ ∨ pyRound q = ⌊q⌋ + 1 := by
  unfold pyRound
  rw [ratFloor_eq_floor]
  split_ifs <;> simp

/-- `pyRound` is within a half of its argument. -/
theorem abs_pyRound_sub_le (q : ℚ) : |(pyRound q : ℚ) - q| ≤ 1/2 := by
  have hfl : (⌊q⌋ : ℚ) ≤ q := Int.floor_le q
  have hfu : q < (⌊q⌋ : ℚ) + 1 := Int.lt_floor_add_one q
  unfold pyRound
  rw [ratFloor_eq_floor]
  split_ifs with h1 h2 h3 <;>
    · rw [abs_le]
      push_cast
      constructor <;> linarith

/-- The fractional part `q - ⌊q⌋` is non-negative. -/
theorem sub_floor_nonneg (q : ℚ) : 0 ≤ q - (⌊q⌋ : ℚ) :=
  sub_nonneg.2 (Int.floor_le q)

/-- The fractional part `q - ⌊q⌋` is less than one. -/
theorem sub_floor_lt_one (q : ℚ) : q - (⌊q⌋ : ℚ) < 1 := by
  have := Int.lt_floor_add_one q
  linarith

/-- C1: for non-negative input `v`, `to_deg v` is
`((d,1),(m,1),(s,10000))` with `d` the truncation (= floor) of `v`, `m`
the truncation of `(v - d) * 60`, and `s` the rounding of
`((v - d) * 60 - m) * 60 * 10000`; degrees and minutes have denominator
1, seconds has denominator 10000, and `to_deg 0 = ((0,1),(0,1),(0,10000))`. -/
theorem to_deg_spec_nonneg (v : ℚ) (h : 0 ≤ v) :
    to_deg v =
      ((⌊v⌋, 1), (⌊(v - (⌊v⌋ : ℚ)) * 60⌋, 1),
        (pyRound (((v - (⌊v⌋ : ℚ)) * 60 - ((⌊(v - (⌊v⌋ : ℚ)) * 60⌋ : ℤ) : ℚ)) * 60 * 10000),
          10000)) ∧
    to_deg 0 = ((0, 1), (0, 1), (0, 10000)) := by
  constructor
  · have hmf : 0 ≤ (v - (⌊v⌋ : ℚ)) * 60 := mul_nonneg (sub_floor_nonneg v) (by norm_num)
    simp only [to_deg]
    rw [pyInt_eq_floor v h, pyInt_eq_floor _ hmf]
  · norm_num [to_deg, pyInt, pyRound, ratFloor_eq_floor]

/-- Witness for C1 at the concrete input `v = 5/2`. -/
theorem to_deg_spec_nonneg_witness :
    (0 : ℚ) ≤ 5/2 ∧
      (to_deg (5/2) =
        ((⌊(5/2 : ℚ)⌋, 1), (⌊((5/2 : ℚ) - (⌊(5/2 : ℚ)⌋ : ℚ)) * 60⌋, 1),
          (pyRound ((((5/2 : ℚ) - (⌊(5/2 : ℚ)⌋ : ℚ)) * 60 -
              ((⌊((5/2 : ℚ) - (⌊(5/2 : ℚ)⌋ : ℚ)) * 60⌋ : ℤ) : ℚ)) * 60 * 10000), 10000)) ∧
      to_deg 0 = ((0, 1), (0, 1), (0, 10000))) :=
  ⟨by norm_num, to_deg_spec_nonneg (5/2) (by norm_num)⟩

/-- C2: for `v` in `[0, 180)`, converting `to_deg v` back to decimal
degrees as `degrees + minutes/60 + (seconds/10000)/3600` reconstructs `v`
to within `(1/10000)/3600` degrees (one ten-thousandth of a second). -/
theorem to_deg_reconstruction_error (v : ℚ) (h0 : 0 ≤ v) (h1 : v < 180) :
    |v - (((to_deg v).1.1 : ℚ) + ((to_deg v).2.1.1 : ℚ) / 60 +
        (((to_deg v).2.2.1 : ℚ) / 10000) / 3600)| ≤ (1 / 10000) / 3600 := by
  have hmf : 0 ≤ (v - (⌊v⌋ : ℚ)) * 60 := mul_nonneg (sub_floor_nonneg v) (by norm_num)
  simp only [to_deg]
  rw [pyInt_eq_floor v h0, pyInt_eq_floor _ hmf]
  have hx := abs_pyRound_sub_le
    (((v - (⌊v⌋ : ℚ)) * 60 - ((⌊(v - (⌊v⌋ : ℚ)) * 60⌋ : ℤ) : ℚ)) * 60 * 10000)
  rw [abs_sub_comm] at hx
  rw [abs_le] at hx ⊢
  constructor <;> · push_cast at hx ⊢; linarith

/-- Witness for C2 at the concrete input `v = 5/2`. -/
theorem to_deg_reconstruction_error_witness :
    ((0 : ℚ) ≤ 5/2 ∧ (5/2 : ℚ) < 180) ∧
      |(5/2 : ℚ) - (((to_deg (5/2)).1.1 : ℚ) + ((to_deg (5/2)).2.1.1 : ℚ) / 60 +
          (((to_deg (5/2)).2.2.1 : ℚ) / 10000) / 3600)| ≤ (1 / 10000) / 3600 :=
  ⟨⟨by norm_num, by norm_num⟩, to_deg_reconstruction_error (5/2) (by norm_num) (by norm_num)⟩

/-- C9: for non-negative `v` the minutes numerator of `to_deg v` lies in
`[0, 59]` and the seconds numerator lies in `[0, 600000]`; the upper
bound 600000 (a full minute of seconds) is attained, e.g. at
`v = 0.99999999`, and the triple is not renormalized below 60 seconds. -/
theorem to_deg_minutes_seconds_bounds (v : ℚ) (h : 0 ≤ v) :
    (0 ≤ (to_deg v).2.1.1 ∧ (to_deg v).2.1.1 ≤ 59 ∧
      0 ≤ (to_deg v).2.2.1 ∧ (to_deg v).2.2.1 ≤ 600000) ∧
    (to_deg ((99999999 : ℚ) / 100000000)).2.2.1 = 600000 := by
  constructor
  · have hmf0 : 0 ≤ (v - (⌊v⌋ : ℚ)) * 60 := mul_nonneg (sub_floor_nonneg v) (by norm_num)
    have hmf1 : (v - (⌊v⌋ : ℚ)) * 60 < 60 := by
      have := sub_floor_lt_one v
      nlinarith
    simp only [to_deg]
    rw [pyInt_eq_floor v h, pyInt_eq_floor _ hmf0]
    set mf : ℚ := (v - (⌊v⌋ : ℚ)) * 60 with hmfdef
    have hm0 : 0 ≤ ⌊mf⌋ := Int.floor_nonneg.2 hmf0
    have hm59 : ⌊mf⌋ ≤ 59 := by
      have : ⌊mf⌋ < 60 := Int.floor_lt.2 (by exact_mod_cast hmf1)
      omega
    refine ⟨hm0, hm59, ?_, ?_⟩
    · have hx0 : 0 ≤ (mf - ((⌊mf⌋ : ℤ) : ℚ)) * 60 * 10000 := by
        have := sub_floor_nonneg mf
        positivity
      have := Int.floor_nonneg.2 hx0
      rcases pyRound_eq_floor_or_succ ((mf - ((⌊mf⌋ : ℤ) : ℚ)) * 60 * 10000) with he | he <;>
        omega
    · have hx1 : (mf - ((⌊mf⌋ : ℤ) : ℚ)) * 60 * 10000 < 600000 := by
        have := sub_floor_lt_one mf
        nlinarith
      have hfl : ⌊(mf - ((⌊mf⌋ : ℤ) : ℚ)) * 60 * 10000⌋ < 600000 :=
        Int.floor_lt.2 (by exact_mod_cast hx1)
      rcases pyRound_eq_floor_or_succ ((mf - ((⌊mf⌋ : ℤ) : ℚ)) * 60 * 10000) with he | he <;>
        omega
  · norm_num [to_deg, pyInt, pyRound, ratFloor_eq_floor]

/-- Witness for C9 at the concrete input `v = 5/2`. -/
theorem to_deg_minutes_seconds_bounds_witness :
    (0 : ℚ) ≤ 5/2 ∧
      ((0 ≤ (to_deg (5/2 : ℚ)).2.1.1 ∧ (to_deg (5/2 : ℚ)).2.1.1 ≤ 59 ∧
        0 ≤ (to_deg (5/2 : ℚ)).2.2.1 ∧ (to_deg (5/2 : ℚ)).2.2.1 ≤ 600000) ∧
      (to_deg ((99999999 : ℚ) / 100000000)).2.2.1 = 600000) :=
  ⟨by norm_num, to_deg_minutes_seconds_bounds (5/2) (by norm_num)⟩

/-- A byte string, modelled as a list of byte values. -/
abbrev Bytes := List ℕ

/-- A value stored in the GPS IFD: either an ASCII byte string (the
hemisphere references) or a DMS rational triple (latitude/longitude). -/
inductive GpsVal where
  | bytes (b : Bytes)
  | triple (t : (ℤ × ℤ) × (ℤ × ℤ) × (ℤ × ℤ))
deriving DecidableEq

/-- The EXIF tag tree produced by `piexif.load` and consumed by
`piexif.dump`: the four IFD groups "0th", "Exif", "GPS", "1st" (mappings
of tag id to value, modelled as association lists) plus an optional
thumbnail byte blob. -/
structure ExifDict where
  zeroth : List (ℕ × Bytes)
  exifTags : List (ℕ × Bytes)
  gps : List (ℕ × GpsVal)
  first : List (ℕ × Bytes)
  thumbnail : Option Bytes
deriving DecidableEq

/-- The freshly initialized tag tree of `src/gps.py` line 43:
`{"0th": {}, "Exif": {}, "GPS": {}, "1st": {}, "thumbnail": None}`. -/
def emptyExifDict : ExifDict := ⟨[], [], [], [], none⟩

/-- The observable state of the target image file: whether the path is a
regular file, the container format reported by the image reader, and the
raw embedded EXIF blob (`img.info.get('exif')`), if any. -/
structure ImageFile where
  isFile : Bool
  format : String
  rawExif : Option Bytes
deriving DecidableEq

/-- The error kinds of the pipeline, named as in the design document;
the source raises `FileNotFoundError` (NotFound), `ValueError`
(UnsupportedFormat), a propagated `piexif` decode failure (CorruptExif)
and `RuntimeError` (GpsAlreadyPresent) for them, respectively. -/
inductive ErrorKind where
  | NotFound
  | UnsupportedFormat
  | CorruptExif
  | GpsAlreadyPresent
deriving DecidableEq

/-- piexif GPS IFD tag id `piexif.GPSIFD.GPSLatitudeRef`. -/
def GPSLatitudeRef : ℕ := 1

/-- piexif GPS IFD tag id `piexif.GPSIFD.GPSLatitude`. -/
def GPSLatitude : ℕ := 2

/-- piexif GPS IFD tag id `piexif.GPSIFD.GPSLongitudeRef`. -/
def GPSLongitudeRef : ℕ := 3

/-- piexif GPS IFD tag id `piexif.GPSIFD.GPSLongitude`. -/
def GPSLongitude : ℕ := 4

/-- The GPS IFD built by `src/gps.py` lines 49–60: DMS triples for the
absolute values of the coordinates, hemisphere reference characters from
their signs (`'N'`/`'S'`, `'E'`/`'W'`), each reference encoded as a
single-byte ASCII string. -/
def build_gps_ifd (lat lon : ℚ) : List (ℕ × GpsVal) :=
  let lat_dms := to_deg |lat|
  let lon_dms := to_deg |lon|
  let lat_ref : Bytes := if 0 ≤ lat then ['N'.toNat] else ['S'.toNat]
  let lon_ref : Bytes := if 0 ≤ lon then ['E'.toNat] else ['W'.toNat]
  [(GPSLatitudeRef, GpsVal.bytes lat_ref),
   (GPSLatitude, GpsVal.triple lat_dms),
   (GPSLongitudeRef, GpsVal.bytes lon_ref),
   (GPSLongitude, GpsVal.triple lon_dms)]

/-- The load-or-initialize branch of `src/gps.py` lines 40–43: a truthy
(present and non-empty) raw EXIF blob is decoded by the codec, whose
failure propagates as `CorruptExif`; otherwise the tag tree starts
empty. -/
def load_exif_dict (load : Bytes → Except Unit ExifDict) (rawExif : Option Bytes) :
    Except ErrorKind ExifDict :=
  match rawExif with
  | some b =>
      if b = [] then Except.ok emptyExifDict
      else
        match load b with
        | Except.ok d => Except.ok d
        | Except.error _ => Except.error ErrorKind.CorruptExif
  | none => Except.ok emptyExifDict

/-- `add_gps_to_image` from `src/gps.py` lines 23–69, with the external
collaborators abstracted: `load` is `piexif.load`, `dump` is
`piexif.dump`.  The result pairs the outcome — the merged tag tree that
was serialized and written, or the error raised — with the final file
state; `piexif.insert` is modelled as replacing the file's raw EXIF blob
with the dumped bytes. -/
def add_gps_to_image (load : Bytes → Except Unit ExifDict) (dump : ExifDict → Bytes)
    (file : ImageFile) (lat lon : ℚ) (overwrite : Bool) :
    Except ErrorKind ExifDict × ImageFile :=
  if file.isFile = false then (Except.error ErrorKind.NotFound, file)
  else if ¬(file.format = "JPEG" ∨ file.format = "TIFF") then
    (Except.error ErrorKind.UnsupportedFormat, file)
  else
    match load_exif_dict load file.rawExif with
    | Except.error e => (Except.error e, file)
    | Except.ok exif_dict =>
        if exif_dict.gps ≠ [] ∧ overwrite = false then
          (Except.error ErrorKind.GpsAlreadyPresent, file)
        else
          let merged := { exif_dict with gps := build_gps_ifd lat lon }
          (Except.ok merged, { file with rawExif := some (dump merged) })

/-- A pair whose first component is an error never equals a pair whose
first component is a success. -/
theorem error_pair_ne_ok {ε α γ : Type} {C : Prop} {e : ε} {a : α} {x y : γ}
    (h : ((Except.error e : Except ε α), x) = (Except.ok a, y)) : C :=
  Except.noConfusion (congrArg Prod.fst h)

/-- When the pipeline succeeds, the GPS group of the merged tag tree is
exactly the freshly built GPS IFD, whatever was loaded. -/
theorem add_gps_ok_gps (load : Bytes → Except Unit ExifDict) (dump : ExifDict → Bytes)
    (file : ImageFile) (lat lon : ℚ) (overwrite : Bool) (d2 : ExifDict) (f2 : ImageFile)
    (hrun : add_gps_to_image load dump file lat lon overwrite = (Except.ok d2, f2)) :
    d2.gps = build_gps_ifd lat lon := by
  unfold add_gps_to_image at hrun
  split_ifs at hrun
  all_goals try exact error_pair_ne_ok hrun
  split at hrun
  · exact error_pair_ne_ok hrun
  · split_ifs at hrun with hg
    all_goals try exact error_pair_ne_ok hrun
    simp only [Prod.mk.injEq, Except.ok.injEq] at hrun
    rw [← hrun.1]

/-- C3: if the loaded tag tree's GPS group is non-empty and `overwrite`
is false, `add_gps_to_image` fails with `GpsAlreadyPresent` and performs
no write — the file state is returned unchanged. -/
theorem add_gps_overwrite_guard (load : Bytes → Except Unit ExifDict) (dump : ExifDict → Bytes)
    (file : ImageFile) (lat lon : ℚ) (b : Bytes) (d : ExifDict)
    (hfile : file.isFile = true)
    (hfmt : file.format = "JPEG" ∨ file.format = "TIFF")
    (hraw : file.rawExif = some b) (hb : b ≠ [])
    (hload : load b = Except.ok d) (hgps : d.gps ≠ []) :
    add_gps_to_image load dump file lat lon false =
      (Except.error ErrorKind.GpsAlreadyPresent, file) := by
  have hle : load_exif_dict load file.rawExif = Except.ok d := by
    simp [load_exif_dict, hraw, hb, hload]
  rcases hfmt with hf | hf <;> simp [add_gps_to_image, hfile, hf, hle, hgps]

/-- C4: on a successful run with a pre-existing EXIF tag tree, only the
GPS group is replaced: the 0th, Exif and 1st groups and the thumbnail of
the merged tree are exactly as loaded, and the file receives the
serialization of that merged tree. -/
theorem add_gps_preserves_non_gps (load : Bytes → Except Unit ExifDict) (dump : ExifDict → Bytes)
    (file : ImageFile) (lat lon : ℚ) (overwrite : Bool) (b : Bytes) (d d2 : ExifDict)
    (f2 : ImageFile)
    (hraw : file.rawExif = some b) (hb : b ≠ []) (hload : load b = Except.ok d)
    (hrun : add_gps_to_image load dump file lat lon overwrite = (Except.ok d2, f2)) :
    d2.zeroth = d.zeroth ∧ d2.exifTags = d.exifTags ∧ d2.first = d.first ∧
      d2.thumbnail = d.thumbnail ∧ f2.rawExif = some (dump d2) := by
  have hle : load_exif_dict load file.rawExif = Except.ok d := by
    simp [load_exif_dict, hraw, hb, hload]
  unfold add_gps_to_image at hrun
  split_ifs at hrun
  all_goals try exact error_pair_ne_ok hrun
  rw [hle] at hrun
  dsimp only at hrun
  split_ifs at hrun with hg
  all_goals try exact error_pair_ne_ok hrun
  simp only [Prod.mk.injEq, Except.ok.injEq] at hrun
  rw [← hrun.1, ← hrun.2]
  exact ⟨rfl, rfl, rfl, rfl, rfl⟩

/-- C5: for latitude in [-90, 90] and longitude in [-180, 180], the GPS
IFD written by a successful `add_gps_to_image` run has exactly the four
entries GPSLatitudeRef, GPSLatitude, GPSLongitudeRef, GPSLongitude:
the triples are `to_deg` of the absolute coordinates, the references are
the single ASCII bytes for N/S (latitude) and E/W (longitude) chosen by
the sign tests `0 ≤ lat` and `0 ≤ lon`, so 0 maps to the positive
hemisphere on both axes. -/
theorem add_gps_gps_ifd_entries (load : Bytes → Except Unit ExifDict) (dump : ExifDict → Bytes)
    (file : ImageFile) (lat lon : ℚ) (overwrite : Bool) (d2 : ExifDict) (f2 : ImageFile)
    (hlat1 : -90 ≤ lat) (hlat2 : lat ≤ 90) (hlon1 : -180 ≤ lon) (hlon2 : lon ≤ 180)
    (hrun : add_gps_to_image load dump file lat lon overwrite = (Except.ok d2, f2)) :
    d2.gps =
      [(GPSLatitudeRef, GpsVal.bytes (if 0 ≤ lat then ['N'.toNat] else ['S'.toNat])),
       (GPSLatitude, GpsVal.triple (to_deg |lat|)),
       (GPSLongitudeRef, GpsVal.bytes (if 0 ≤ lon then ['E'.toNat] else ['W'.toNat])),
       (GPSLongitude, GpsVal.triple (to_deg |lon|))] := by
  rw [add_gps_ok_gps load dump file lat lon overwrite d2 f2 hrun]
  rfl

/-- C6: on an existing file whose format is neither JPEG nor TIFF, the
pipeline fails with `UnsupportedFormat` and the file is untouched; the
result does not depend on the codec (`load`, `dump` are arbitrary), so
no decode, merge or write is attempted. -/
theorem add_gps_unsupported_format (load : Bytes → Except Unit ExifDict)
    (dump : ExifDict → Bytes) (file : ImageFile) (lat lon : ℚ) (overwrite : Bool)
    (hfile : file.isFile = true)
    (hfmt1 : file.format ≠ "JPEG") (hfmt2 : file.format ≠ "TIFF") :
    add_gps_to_image load dump file lat lon overwrite =
      (Except.error ErrorKind.UnsupportedFormat, file) := by
  simp [add_gps_to_image, hfile, hfmt1, hfmt2]

/-- C7: two successive successful runs with `overwrite = true` and the
same coordinates write the same GPS group. -/
theorem add_gps_idempotent_gps (load : Bytes → Except Unit ExifDict) (dump : ExifDict → Bytes)
    (f : ImageFile) (lat lon : ℚ) (d1 : ExifDict) (f1 : ImageFile) (d2 : ExifDict)
    (f2 : ImageFile)
    (h1 : add_gps_to_image load dump f lat lon true = (Except.ok d1, f1))
    (h2 : add_gps_to_image load dump f1 lat lon true = (Except.ok d2, f2)) :
    d2.gps = d1.gps := by
  rw [add_gps_ok_gps load dump f1 lat lon true d2 f2 h2,
    add_gps_ok_gps load dump f lat lon true d1 f1 h1]

/-- C8: a GPS group that is present but empty does not trip the
overwrite guard even with `overwrite = false` — the emptiness-based
check lets the run proceed to merge and write. -/
theorem add_gps_empty_gps_group_proceeds (load : Bytes → Except Unit ExifDict)
    (dump : ExifDict → Bytes) (file : ImageFile) (lat lon : ℚ) (b : Bytes) (d : ExifDict)
    (hfile : file.isFile = true)
    (hfmt : file.format = "JPEG" ∨ file.format = "TIFF")
    (hraw : file.rawExif = some b) (hb : b ≠ [])
    (hload : load b = Except.ok d) (hgps : d.gps = []) :
    add_gps_to_image load dump file lat lon false =
      (Except.ok { d with gps := build_gps_ifd lat lon },
        { file with rawExif := some (dump { d with gps := build_gps_ifd lat lon }) }) := by
  have hle : load_exif_dict load file.rawExif = Except.ok d := by
    simp [load_exif_dict, hraw, hb, hload]
  rcases hfmt with hf | hf <;> simp [add_gps_to_image, hfile, hf, hle, hgps]

/-- C10: the GPS group written by a successful run depends only on the
coordinates: two successful runs with the same (lat, lon) — on any
files, codecs and overwrite flags — write identical GPS groups. -/
theorem add_gps_gps_noninterference (load1 : Bytes → Except Unit ExifDict)
    (dump1 : ExifDict → Bytes) (f1 : ImageFile) (ow1 : Bool)
    (load2 : Bytes → Except Unit ExifDict) (dump2 : ExifDict → Bytes) (f2 : ImageFile)
    (ow2 : Bool) (lat lon : ℚ) (d1 : ExifDict) (g1 : ImageFile) (d2 : ExifDict)
    (g2 : ImageFile)
    (h1 : add_gps_to_image load1 dump1 f1 lat lon ow1 = (Except.ok d1, g1))
    (h2 : add_gps_to_image load2 dump2 f2 lat lon ow2 = (Except.ok d2, g2)) :
    d1.gps = d2.gps := by
  rw [add_gps_ok_gps load1 dump1 f1 lat lon ow1 d1 g1 h1,
    add_gps_ok_gps load2 dump2 f2 lat lon ow2 d2 g2 h2]

/-- Witness fixture: a tag tree whose GPS group already has an entry. -/
def wDictGps : ExifDict :=
  ⟨[], [], [(GPSLatitudeRef, GpsVal.bytes ['N'.toNat])], [], none⟩

/-- Witness fixture: a tag tree with a pre-existing 0th tag and an
empty GPS group. -/
def wDictPlain : ExifDict := ⟨[(306, [50, 48, 50, 52])], [], [], [], none⟩

/-- Witness fixture: a codec whose decode always yields `wDictGps`. -/
def wLoadGps : Bytes → Except Unit ExifDict := fun _ => Except.ok wDictGps

/-- Witness fixture: a codec whose decode always yields `wDictPlain`. -/
def wLoadPlain : Bytes → Except Unit ExifDict := fun _ => Except.ok wDictPlain

/-- Witness fixture: a serializer producing the one-byte blob `[1]`. -/
def wDump : ExifDict → Bytes := fun _ => [1]

/-- Witness fixture: an existing JPEG file with a raw EXIF blob. -/
def wFileJpeg : ImageFile := ⟨true, "JPEG", some [0]⟩

/-- Witness fixture: an existing PNG file. -/
def wFilePng : ImageFile := ⟨true, "PNG", none⟩

/-- Witness fixture: an existing JPEG file with no EXIF blob. -/
def wFileNoExif : ImageFile := ⟨true, "JPEG", none⟩

/-- Witness for C3 on a concrete file whose EXIF already has GPS data. -/
theorem add_gps_overwrite_guard_witness :
    (wFileJpeg.isFile = true ∧ (wFileJpeg.format = "JPEG" ∨ wFileJpeg.format = "TIFF") ∧
      wFileJpeg.rawExif = some [0] ∧ ([0] : Bytes) ≠ [] ∧
      wLoadGps [0] = Except.ok wDictGps ∧ wDictGps.gps ≠ []) ∧
    add_gps_to_image wLoadGps wDump wFileJpeg 1 2 false =
      (Except.error ErrorKind.GpsAlreadyPresent, wFileJpeg) :=
  ⟨⟨rfl, Or.inl rfl, rfl, by decide, rfl, by decide⟩,
    add_gps_overwrite_guard wLoadGps wDump wFileJpeg 1 2 [0] wDictGps rfl (Or.inl rfl) rfl
      (by decide) rfl (by decide)⟩

/-- Witness for C4 on a concrete file with a pre-existing 0th tag. -/
theorem add_gps_preserves_non_gps_witness :
    (wFileJpeg.rawExif = some [0] ∧ ([0] : Bytes) ≠ [] ∧
      wLoadPlain [0] = Except.ok wDictPlain ∧
      add_gps_to_image wLoadPlain wDump wFileJpeg 1 2 false =
        (Except.ok { wDictPlain with gps := build_gps_ifd 1 2 },
          { wFileJpeg with
              rawExif := some (wDump { wDictPlain with gps := build_gps_ifd 1 2 }) })) ∧
    ({ wDictPlain with gps := build_gps_ifd 1 2 }.zeroth = wDictPlain.zeroth ∧
      { wDictPlain with gps := build_gps_ifd 1 2 }.exifTags = wDictPlain.exifTags ∧
      { wDictPlain with gps := build_gps_ifd 1 2 }.first = wDictPlain.first ∧
      { wDictPlain with gps := build_gps_ifd 1 2 }.thumbnail = wDictPlain.thumbnail ∧
      ({ wFileJpeg with
          rawExif := some (wDump { wDictPlain with gps := build_gps_ifd 1 2 }) }).rawExif =
        some (wDump { wDictPlain with gps := build_gps_ifd 1 2 })) :=
  ⟨⟨rfl, by decide, rfl, rfl⟩,
    add_gps_preserves_non_gps wLoadPlain wDump wFileJpeg 1 2 false [0] wDictPlain
      { wDictPlain with gps := build_gps_ifd 1 2 }
      { wFileJpeg with
          rawExif := some (wDump { wDictPlain with gps := build_gps_ifd 1 2 }) }
      rfl (by decide) rfl rfl⟩

/-- Witness for C5 at the concrete coordinates (1, 2). -/
theorem add_gps_gps_ifd_entries_witness :
    ((-90 : ℚ) ≤ 1 ∧ (1 : ℚ) ≤ 90 ∧ (-180 : ℚ) ≤ 2 ∧ (2 : ℚ) ≤ 180) ∧
    ({ emptyExifDict with gps := build_gps_ifd 1 2 } : ExifDict).gps =
      [(GPSLatitudeRef, GpsVal.bytes (if (0 : ℚ) ≤ 1 then ['N'.toNat] else ['S'.toNat])),
       (GPSLatitude, GpsVal.triple (to_deg |(1 : ℚ)|)),
       (GPSLongitudeRef, GpsVal.bytes (if (0 : ℚ) ≤ 2 then ['E'.toNat] else ['W'.toNat])),
       (GPSLongitude, GpsVal.triple (to_deg |(2 : ℚ)|))] :=
  ⟨⟨by norm_num, by norm_num, by norm_num, by norm_num⟩,
    add_gps_gps_ifd_entries wLoadPlain wDump wFileNoExif 1 2 true
      { emptyExifDict with gps := build_gps_ifd 1 2 }
      { wFileNoExif with
          rawExif := some (wDump { emptyExifDict with gps := build_gps_ifd 1 2 }) }
      (by norm_num) (by norm_num) (by norm_num) (by norm_num) rfl⟩

/-- Witness for C6 on a concrete PNG file. -/
theorem add_gps_unsupported_format_witness :
    (wFilePng.isFile = true ∧ wFilePng.format ≠ "JPEG" ∧ wFilePng.format ≠ "TIFF") ∧
    add_gps_to_image wLoadPlain wDump wFilePng 1 2 false =
      (Except.error ErrorKind.UnsupportedFormat, wFilePng) :=
  ⟨⟨rfl, by decide, by decide⟩,
    add_gps_unsupported_format wLoadPlain wDump wFilePng 1 2 false rfl (by decide) (by decide)⟩

/-- Witness for C7: two concrete successive forced runs. -/
theorem add_gps_idempotent_gps_witness :
    (add_gps_to_image wLoadPlain wDump wFileNoExif 1 2 true =
        (Except.ok { emptyExifDict with gps := build_gps_ifd 1 2 },
          { wFileNoExif with
              rawExif := some (wDump { emptyExifDict with gps := build_gps_ifd 1 2 }) }) ∧
      add_gps_to_image wLoadPlain wDump
          { wFileNoExif with
              rawExif := some (wDump { emptyExifDict with gps := build_gps_ifd 1 2 }) }
          1 2 true =
        (Except.ok { wDictPlain with gps := build_gps_ifd 1 2 },
          { wFileNoExif with
              rawExif := some (wDump { wDictPlain with gps := build_gps_ifd 1 2 }) })) ∧
    ({ wDictPlain with gps := build_gps_ifd 1 2 } : ExifDict).gps =
      ({ emptyExifDict with gps := build_gps_ifd 1 2 } : ExifDict).gps :=
  ⟨⟨rfl, rfl⟩,
    add_gps_idempotent_gps wLoadPlain wDump wFileNoExif 1 2
      { emptyExifDict with gps := build_gps_ifd 1 2 }
      { wFileNoExif with
          rawExif := some (wDump { emptyExifDict with gps := build_gps_ifd 1 2 }) }
      { wDictPlain with gps := build_gps_ifd 1 2 }
      { wFileNoExif with
          rawExif := some (wDump { wDictPlain with gps := build_gps_ifd 1 2 }) }
      rfl rfl⟩

/-- Witness for C8 on a concrete file whose EXIF has an empty GPS group. -/
theorem add_gps_empty_gps_group_proceeds_witness :
    (wFileJpeg.isFile = true ∧ (wFileJpeg.format = "JPEG" ∨ wFileJpeg.format = "TIFF") ∧
      wFileJpeg.rawExif = some [0] ∧ ([0] : Bytes) ≠ [] ∧
      wLoadPlain [0] = Except.ok wDictPlain ∧ wDictPlain.gps = []) ∧
    add_gps_to_image wLoadPlain wDump wFileJpeg 1 2 false =
      (Except.ok { wDictPlain with gps := build_gps_ifd 1 2 },
        { wFileJpeg with
            rawExif := some (wDump { wDictPlain with gps := build_gps_ifd 1 2 }) }) :=
  ⟨⟨rfl, Or.inl rfl, rfl, by decide, rfl, rfl⟩,
    add_gps_empty_gps_group_proceeds wLoadPlain wDump wFileJpeg 1 2 [0] wDictPlain rfl
      (Or.inl rfl) rfl (by decide) rfl rfl⟩

/-- Witness for C10: two concrete runs on different files and codecs. -/
theorem add_gps_gps_noninterference_witness :
    (add_gps_to_image wLoadPlain wDump wFileNoExif 1 2 true =
        (Except.ok { emptyExifDict with gps := build_gps_ifd 1 2 },
          { wFileNoExif with
              rawExif := some (wDump { emptyExifDict with gps := build_gps_ifd 1 2 }) }) ∧
      add_gps_to_image wLoadPlain wDump wFileJpeg 1 2 false =
        (Except.ok { wDictPlain with gps := build_gps_ifd 1 2 },
          { wFileJpeg with
              rawExif := some (wDump { wDictPlain with gps := build_gps_ifd 1 2 }) })) ∧
    ({ emptyExifDict with gps := build_gps_ifd 1 2 } : ExifDict).gps =
      ({ wDictPlain with gps := build_gps_ifd 1 2 } : ExifDict).gps :=
  ⟨⟨rfl, rfl⟩,
    add_gps_gps_noninterference wLoadPlain wDump wFileNoExif true wLoadPlain wDump wFileJpeg
      false 1 2 { emptyExifDict with gps := build_gps_ifd 1 2 }
      { wFileNoExif with
          rawExif := some (wDump { emptyExifDict with gps := build_gps_ifd 1 2 }) }
      { wDictPlain with gps := build_gps_ifd 1 2 }
      { wFileJpeg with
          rawExif := some (wDump { wDictPlain with gps := build_gps_ifd 1 2 }) }
      rfl rfl⟩
